import Mathlib

/-!
Verification of the arbi_phoenix trading system against its specification.

Each Python module relevant to the verified claims is shallowly embedded:
pure computations become Lean functions over `Rat` (exact arithmetic in
place of Python floats), stateful monitoring loops become explicit state
passing, and broker calls that may fail are modelled by `Option` or by a
Boolean outcome parameter.
-/

namespace Phoenix

/-! ## Order executor (`phoenix_brokers/order_executor.py`)

Embedding of the `FillMode` enum, the per-broker settings table built by
`BrokerOrderExecutor._load_broker_settings`, and `_adjust_fill_mode`. -/

/-- Order fill modes (`class FillMode(Enum)`). -/
inductive FillMode : Type
  | IOC
  | FOK
  | GTC
  | DAY
  | MARKET
  | INSTANT
  | REQUEST
  deriving DecidableEq, Repr

open FillMode

/-- Static fallback table from `_adjust_fill_mode` (`fallback_map`). -/
def fallback_map : FillMode → List FillMode
  | IOC => [MARKET, INSTANT]
  | FOK => [IOC, MARKET]
  | MARKET => [INSTANT, IOC]
  | INSTANT => [MARKET, IOC]
  | GTC => [DAY, MARKET]
  | DAY => [GTC, MARKET]
  | REQUEST => [INSTANT, MARKET]

/-- Embedding of `BrokerOrderExecutor._adjust_fill_mode`: return the
requested mode if supported, otherwise the first supported entry of the
fallback table, otherwise the first supported mode (`FillMode.MARKET` if
the supported list is empty). -/
def adjust_fill_mode (supported_modes : List FillMode)
    (requested_fill_mode : FillMode) : FillMode :=
  if requested_fill_mode ∈ supported_modes then
    requested_fill_mode
  else
    match (fallback_map requested_fill_mode).find?
        (fun fallback => fallback ∈ supported_modes) with
    | some fallback => fallback
    | none => supported_modes.headD FillMode.MARKET

/-- Outcome of the leg-success check shared by
`ArbitrageEngine._execute_forward_triangle` and
`_execute_reverse_triangle` (`arbitrage_engine.py`): given the per-leg
`success` flags of the results returned by
`execute_triangle_arbitrage`, compute
`success_rate = successful_orders / len(results) if results else 0` and
return `success_rate >= 0.67`. The literal `0.67` is modelled as the
rational `67/100`; the comparison classifies the reachable rates
`0, 1/3, 2/3, 1` exactly as the float comparison does. -/
def execute_triangle_success (results : List Bool) : Bool :=
  let successful_orders := (results.filter (fun r => r)).length
  let success_rate : ℚ :=
    if results.isEmpty then 0
    else (successful_orders : ℚ) / (results.length : ℚ)
  success_rate ≥ 67 / 100

/-- Broker variants present in the settings table of
`_load_broker_settings`. -/
inductive BrokerType : Type
  | MT5
  | MT4
  | CTRADER
  | IB
  | OANDA
  | FXCM
  deriving DecidableEq, Repr

/-- Per-broker `supported_fill_modes` from `_load_broker_settings`. -/
def supported_fill_modes : BrokerType → List FillMode
  | BrokerType.MT5 => [MARKET, IOC, FOK]
  | BrokerType.MT4 => [MARKET, INSTANT]
  | BrokerType.CTRADER => [MARKET, IOC, FOK, GTC]
  | BrokerType.IB => [IOC, FOK, GTC, DAY]
  | BrokerType.OANDA => [IOC, FOK, GTC]
  | BrokerType.FXCM => [MARKET, IOC, GTC]

/-! ## Opportunity detector (`ArbitrageEngine._find_triangular_combinations`)

Pairs are given as `(base_currency, quote_currency)`. The Python code
collects the currencies into a set and the pair names (both orientations)
into a dict; set iteration is modelled as first-insertion order, which the
claims settled here do not depend on. -/

/-- Currencies collected by `_find_triangular_combinations` from the pair
universe (`currencies = set()` filled with each base and quote). -/
def triangle_currencies (pairs : List (String × String)) : List String :=
  pairs.foldl
    (fun acc pair =>
      let acc1 := if pair.1 ∈ acc then acc else acc ++ [pair.1]
      if pair.2 ∈ acc1 then acc1 else acc1 ++ [pair.2])
    []

/-- Keys of `pair_dict` in `_find_triangular_combinations`: for each pair
both `base+quote` and the reversed `quote+base` are inserted. -/
def pair_dict_keys (pairs : List (String × String)) : List String :=
  pairs.foldl (fun acc pair => acc ++ [pair.1 ++ pair.2, pair.2 ++ pair.1]) []

/-- Embedding of `ArbitrageEngine._find_triangular_combinations`: iterate
over all ordered triples of currencies, keep those that are pairwise
distinct and whose three consecutive pair names exist in `pair_dict`. -/
def find_triangular_combinations (pairs : List (String × String)) :
    List (String × String × String) :=
  let currencies := triangle_currencies pairs
  let keys := pair_dict_keys pairs
  currencies.flatMap fun curr1 =>
    currencies.flatMap fun curr2 =>
      currencies.flatMap fun curr3 =>
        if curr1 ≠ curr2 ∧ curr2 ≠ curr3 ∧ curr1 ≠ curr3 ∧
            (curr1 ++ curr2) ∈ keys ∧ (curr2 ++ curr3) ∈ keys ∧
            (curr3 ++ curr1) ∈ keys then
          [(curr1 ++ curr2, curr2 ++ curr3, curr3 ++ curr1)]
        else []

/-- Pair-name entry produced by `_find_triangular_combinations` for the
ordered currency cycle `(c1, c2, c3)`. -/
def triangle_of_cycle (c : String × String × String) :
    String × String × String :=
  (c.1 ++ c.2.1, c.2.1 ++ c.2.2, c.2.2 ++ c.1)

/-- Two ordered 3-currency cycles denote the same triangle when one is a
rotation or a reflection of the other. -/
def cycle_equiv (a b : String × String × String) : Prop :=
  b = (a.1, a.2.1, a.2.2) ∨ b = (a.2.1, a.2.2, a.1) ∨
  b = (a.2.2, a.1, a.2.1) ∨ b = (a.2.2, a.2.1, a.1) ∨
  b = (a.2.1, a.1, a.2.2) ∨ b = (a.1, a.2.2, a.2.1)

instance (a b : String × String × String) : Decidable (cycle_equiv a b) := by
  unfold cycle_equiv; infer_instance

/-- Condition under which `_find_triangular_combinations` emits the
ordered triple `(c1, c2, c3)`. -/
def valid_ordered_triple (pairs : List (String × String))
    (c1 c2 c3 : String) : Prop :=
  c1 ∈ triangle_currencies pairs ∧ c2 ∈ triangle_currencies pairs ∧
  c3 ∈ triangle_currencies pairs ∧
  c1 ≠ c2 ∧ c2 ≠ c3 ∧ c1 ≠ c3 ∧
  (c1 ++ c2) ∈ pair_dict_keys pairs ∧ (c2 ++ c3) ∈ pair_dict_keys pairs ∧
  (c3 ++ c1) ∈ pair_dict_keys pairs

instance (pairs : List (String × String)) (c1 c2 c3 : String) :
    Decidable (valid_ordered_triple pairs c1 c2 c3) := by
  unfold valid_ordered_triple; infer_instance

/-! ## Balanced lot calculator (`phoenix_core/balanced_lot_calculator.py`)

The calculator's `self.usd_values` dict (pair → USD value of one lot) is
passed as an association list. Python's built-in `round` used on
`required_lot / lot_step` rounds to the nearest integer with ties going to
the even integer (banker's rounding); `pyRound` models exactly that. -/

/-- Python built-in `round` on an exact rational: nearest integer, ties to
the even integer. -/
def pyRound (q : ℚ) : ℤ :=
  if q - (⌊q⌋ : ℚ) < 1 / 2 then ⌊q⌋
  else if 1 / 2 < q - (⌊q⌋ : ℚ) then ⌊q⌋ + 1
  else if ⌊q⌋ % 2 = 0 then ⌊q⌋ else ⌊q⌋ + 1

/-- Loop body of `BalancedLotCalculator._calculate_equal_exposure_lots`
for a single pair: fall back to `min_lot` when the pair has no USD value,
otherwise clamp `target_exposure / usd_per_lot` to `[min_lot, max_lot]`,
rounding to the lot step inside the range and re-raising to `min_lot`. -/
def equal_exposure_lot (usd_values : List (String × ℚ))
    (target_exposure lot_step min_lot max_lot : ℚ) (pair : String) : ℚ :=
  match usd_values.lookup pair with
  | none => min_lot
  | some usd_per_lot =>
    let required_lot := target_exposure / usd_per_lot
    if required_lot < min_lot then min_lot
    else if max_lot < required_lot then max_lot
    else max ((pyRound (required_lot / lot_step) : ℚ) * lot_step) min_lot

/-- Embedding of `_calculate_equal_exposure_lots`: one entry per triangle
pair (the Python dict keyed by pair). -/
def calculate_equal_exposure_lots (usd_values : List (String × ℚ))
    (triangle_pairs : List String)
    (target_exposure lot_step min_lot max_lot : ℚ) : List (String × ℚ) :=
  triangle_pairs.map fun pair =>
    (pair, equal_exposure_lot usd_values target_exposure lot_step min_lot max_lot pair)

/-- Embedding of `BalancedLotCalculator.validate_triangle_balance`
(Boolean component of the returned tuple): collect the monetary exposure
`lot × usd_value` of every resolvable pair, reject with fewer than three
exposures (this also covers the empty case the Python code checks first),
otherwise compare the maximum relative deviation from the average against
the tolerance. Python's `max(...)` over the non-empty deviations is
modelled by a fold from the first element. -/
def validate_triangle_balance (usd_values : List (String × ℚ))
    (triangle_lots : List (String × ℚ)) (tolerance : ℚ) : Bool :=
  let exposures := triangle_lots.filterMap fun pl =>
    (usd_values.lookup pl.1).map fun v => pl.2 * v
  if exposures.length < 3 then false
  else
    let avg_exposure := exposures.sum / (exposures.length : ℚ)
    let deviations := exposures.map fun e => |e - avg_exposure| / avg_exposure
    let max_deviation := match deviations with
      | [] => 0
      | d :: ds => ds.foldl max d
    max_deviation ≤ tolerance

/-- Specification-side formula for `validate_triangle_balance` (from the
spec's words): the maximum relative deviation of the three per-leg
monetary exposures from their average. -/
def spec_max_relative_deviation (e1 e2 e3 : ℚ) : ℚ :=
  let avg := (e1 + e2 + e3) / 3
  max (|e1 - avg| / avg) (max (|e2 - avg| / avg) (|e3 - avg| / avg))

/-! ## Profit harvester (`phoenix_core/profit_harvester.py`)

Timestamps are in whole seconds (`datetime` differences compared against
`timedelta(hours=1)` become integer comparisons against 3600). The broker
side of `mt5.order_send` inside the partial close is modelled by a
Boolean outcome parameter `close_ok`. -/

/-- Profit taking levels (`class ProfitLevel(Enum)`); `STAGE_1`/`STAGE_2`
model the source's `PARTIAL_1`/`PARTIAL_2` members. -/
inductive ProfitLevel : Type
  | QUICK_SCALP
  | STAGE_1
  | STAGE_2
  | FINAL_TARGET
  deriving DecidableEq, Repr

/-- Profit target configuration (`@dataclass ProfitTarget`). -/
structure ProfitTarget : Type where
  level : ProfitLevel
  pips : ℚ
  percentage : ℚ
  is_active : Bool
  hit_count : ℕ

/-- Default targets from `_initialize_profit_targets` with an empty
config. -/
def default_profit_targets : ProfitLevel → ProfitTarget
  | ProfitLevel.QUICK_SCALP => ⟨ProfitLevel.QUICK_SCALP, 8, 25, true, 0⟩
  | ProfitLevel.STAGE_1 => ⟨ProfitLevel.STAGE_1, 15, 25, true, 0⟩
  | ProfitLevel.STAGE_2 => ⟨ProfitLevel.STAGE_2, 25, 30, true, 0⟩
  | ProfitLevel.FINAL_TARGET => ⟨ProfitLevel.FINAL_TARGET, 40, 20, true, 0⟩

/-- Trading position information (`@dataclass Position` in
`arbitrage_engine.py`), with `open_time` in seconds. -/
structure Position : Type where
  ticket : ℤ
  symbol : String
  type : String
  volume : ℚ
  open_price : ℚ
  current_price : ℚ
  profit : ℚ
  swap : ℚ
  commission : ℚ
  open_time : ℤ
  magic_number : ℤ
  deriving DecidableEq, Repr

/-- Profit harvest record (`@dataclass HarvestRecord`), timestamp in
seconds. -/
structure HarvestRecord : Type where
  position_id : ℤ
  symbol : String
  profit_level : ProfitLevel
  pips_harvested : ℚ
  amount_harvested : ℚ
  percentage_closed : ℚ
  timestamp : ℤ
  remaining_position : ℚ
  deriving DecidableEq, Repr

/-- Embedding of `ProfitHarvester._is_level_already_hit`: some record for
the same position ticket and level is younger than one hour
(`datetime.now() - record.timestamp < timedelta(hours=1)`). -/
def is_level_already_hit (harvest_records : List HarvestRecord) (now : ℤ)
    (pos : Position) (level : ProfitLevel) : Bool :=
  harvest_records.any fun record =>
    record.position_id == pos.ticket && record.profit_level == level &&
      decide (now - record.timestamp < 3600)

/-- Embedding of `ProfitHarvester._trigger_profit_taking` acting on the
`harvest_records` state: returns the new record list and whether a
partial close was performed. `close_ok` is the broker outcome of the
partial close order. -/
def trigger_profit_taking (targets : ProfitLevel → ProfitTarget)
    (harvest_records : List HarvestRecord) (now : ℤ) (pos : Position)
    (level : ProfitLevel) (current_pips : ℚ) (close_ok : Bool) :
    List HarvestRecord × Bool :=
  if is_level_already_hit harvest_records now pos level then
    (harvest_records, false)
  else
    let target := targets level
    let close_percentage := target.percentage / 100
    let close_volume := pos.volume * close_percentage
    if close_ok then
      (harvest_records ++
        [{ position_id := pos.ticket
           symbol := pos.symbol
           profit_level := level
           pips_harvested := current_pips
           amount_harvested := pos.profit * close_percentage
           percentage_closed := target.percentage
           timestamp := now
           remaining_position := pos.volume - close_volume }], true)
    else
      (harvest_records, false)

/-- One monitoring-tick trigger occurrence: the wall-clock time, the
position, the level whose threshold was met, the current profit pips and
the broker outcome of the partial close. -/
structure TriggerEvent : Type where
  now : ℤ
  pos : Position
  level : ProfitLevel
  current_pips : ℚ
  close_ok : Bool

/-- Folding `_trigger_profit_taking` over a sequence of trigger
occurrences in tick order. -/
def run_triggers (targets : ProfitLevel → ProfitTarget)
    (harvest_records : List HarvestRecord) :
    List TriggerEvent → List HarvestRecord
  | [] => harvest_records
  | e :: es =>
      run_triggers targets
        (trigger_profit_taking targets harvest_records e.now e.pos e.level
          e.current_pips e.close_ok).1 es

/-- Cooldown separation invariant: any two records for the same
(position, level) are at least one hour apart (listed in time order, so
the later one is at least 3600 seconds after the earlier one). -/
def harvest_cooldown_respected (harvest_records : List HarvestRecord) : Prop :=
  harvest_records.Pairwise fun r r' =>
    r.position_id = r'.position_id → r.profit_level = r'.profit_level →
      r.timestamp + 3600 ≤ r'.timestamp

/-- Checks three consecutive characters `JPY`, modelling Python's
`'JPY' in position.symbol`. -/
def has_jpy : List Char → Bool
  | 'J' :: 'P' :: 'Y' :: _ => true
  | _ :: rest => has_jpy rest
  | [] => false

/-- Pip size selection shared by `_calculate_profit_pips` and
`_update_trailing_stop`: 0.01 for JPY symbols, 0.0001 otherwise. -/
def pip_size_of (symbol : String) : ℚ :=
  if has_jpy symbol.toList then 1 / 100 else 1 / 10000

/-- Embedding of `ProfitHarvester._calculate_profit_pips` at a given
current price. -/
def calculate_profit_pips (pos : Position) (current_price : ℚ) : ℚ :=
  let price_diff :=
    if pos.type = "buy" then current_price - pos.open_price
    else pos.open_price - current_price
  price_diff / pip_size_of pos.symbol

/-- Embedding of the stop level computed by
`ProfitHarvester._update_trailing_stop`: the current price minus (buy) or
plus (sell) the trailing distance in pips. The computation uses only the
current price — it is not clamped against any previously set stop. -/
def update_trailing_stop (trailing_stop_distance : ℚ) (pos : Position)
    (current_price : ℚ) : ℚ :=
  let pip_size := pip_size_of pos.symbol
  if pos.type = "buy" then
    current_price - trailing_stop_distance * pip_size
  else
    current_price + trailing_stop_distance * pip_size

/-! ## Recovery system (`phoenix_core/recovery_system.py`)

Current prices are supplied as a partial map `String → Option ℚ`
(mirroring `_get_current_price` returning `None` on failure);
`_execute_recovery_position` is simulated as always successful in the
source, so a created layer is returned with status `active`. -/

/-- Recovery layer information (`@dataclass RecoveryLayer`),
activation time in seconds. -/
structure RecoveryLayer : Type where
  layer_id : ℕ
  currency_pair : String
  correlation : ℚ
  position_size : ℚ
  entry_price : ℚ
  current_price : ℚ
  profit_loss : ℚ
  status : String
  activation_time : ℤ
  target_profit : ℚ
  deriving DecidableEq, Repr

/-- Recovery direction computed inside `_create_recovery_layer`: from the
correlation sign, inverted when the original position is a sell. It is
passed to the (always successful) order placement and does not appear in
the stored layer. -/
def recovery_direction_of (original_type : String) (correlation : ℚ) :
    String :=
  if original_type = "sell" then
    if 0 < correlation then "sell" else "buy"
  else
    if 0 < correlation then "buy" else "sell"

/-- Embedding of `RecoverySystem._create_recovery_layer`:
`recovery_size = original_position.volume * recovery_multiplier ** layer_id`,
`None` when no current price is available, otherwise the stored layer
(status `active` because `_execute_recovery_position` is simulated as
always successful). -/
def create_recovery_layer (recovery_multiplier : ℚ) (now : ℤ)
    (prices : String → Option ℚ) (layer_id : ℕ)
    (original_position : Position) (recovery_pair : String)
    (correlation : ℚ) : Option RecoveryLayer :=
  let recovery_size := original_position.volume * recovery_multiplier ^ layer_id
  match prices recovery_pair with
  | none => none
  | some current_price =>
    let target_profit := |original_position.profit| * (12 / 10)
    some { layer_id := layer_id
           currency_pair := recovery_pair
           correlation := correlation
           position_size := recovery_size
           entry_price := current_price
           current_price := current_price
           profit_loss := 0
           status := "active"
           activation_time := now
           target_profit := target_profit }

/-- Indexed layer-creation loop of `RecoverySystem._activate_recovery`:
`for i, (pair, correlation) in enumerate(...)` calling
`_create_recovery_layer(layer_id=i+1, ...)` and keeping the successful
creations. -/
def create_layers (recovery_multiplier : ℚ) (now : ℤ)
    (prices : String → Option ℚ) (original_position : Position) :
    ℕ → List (String × ℚ) → List RecoveryLayer
  | _, [] => []
  | i, c :: cs =>
      match create_recovery_layer recovery_multiplier now prices (i + 1)
          original_position c.1 c.2 with
      | some layer =>
          layer :: create_layers recovery_multiplier now prices
            original_position (i + 1) cs
      | none =>
          create_layers recovery_multiplier now prices original_position
            (i + 1) cs

/-- Embedding of `RecoverySystem._activate_recovery`: the recovery layers
created from the eligible candidate pairs, taken in order up to
`max_layers`. The chain is recorded in `active_recoveries` only when this
list is non-empty. -/
def activate_recovery (max_layers : ℕ) (recovery_multiplier : ℚ)
    (now : ℤ) (prices : String → Option ℚ) (original_position : Position)
    (recovery_pairs : List (String × ℚ)) : List RecoveryLayer :=
  create_layers recovery_multiplier now prices original_position 0
    (recovery_pairs.take max_layers)

/-- Concrete open buy position used to instantiate the theorems with
hypotheses. -/
def sample_position : Position :=
  { ticket := 1001
    symbol := "EURUSD"
    type := "buy"
    volume := 1
    open_price := 1
    current_price := 1
    profit := 50
    swap := 0
    commission := 0
    open_time := 0
    magic_number := 20241201 }

end Phoenix

namespace Phoenix

/-- C8: the requested fill mode is returned unchanged when the gateway
supports it; otherwise the first supported entry of the static fallback
table is returned; and when no fallback entry is supported, the gateway's
first supported mode is returned. -/
theorem c8_adjust_fill_mode_spec (supported_modes : List FillMode)
    (req : FillMode) :
    (req ∈ supported_modes → adjust_fill_mode supported_modes req = req) ∧
    (req ∉ supported_modes →
      ∀ m, (fallback_map req).find? (fun f => f ∈ supported_modes) = some m →
        adjust_fill_mode supported_modes req = m) ∧
    (req ∉ supported_modes →
      (fallback_map req).find? (fun f => f ∈ supported_modes) = none →
      supported_modes ≠ [] →
        adjust_fill_mode supported_modes req = supported_modes.headD FillMode.MARKET) := by
  refine ⟨fun h => ?_, fun h m hm => ?_, fun h hn _ => ?_⟩
  · simp [adjust_fill_mode, h]
  · simp [adjust_fill_mode, h, hm]
  · simp [adjust_fill_mode, h, hn]

/-- Witness for C8: concrete instantiation at the MT4 supported set with a
requested IOC mode, discharging each hypothesis. -/
theorem c8_adjust_fill_mode_spec_witness :
    adjust_fill_mode [FillMode.MARKET, FillMode.INSTANT] FillMode.IOC
      = FillMode.MARKET :=
  (c8_adjust_fill_mode_spec [FillMode.MARKET, FillMode.INSTANT]
      FillMode.IOC).2.1 (by decide) FillMode.MARKET (by decide)

/-- C10: for every broker variant in the built-in settings table and every
requested fill mode, the adjusted fill mode is a member of that variant's
declared supported set. -/
theorem c10_adjusted_mode_supported (b : BrokerType) (req : FillMode) :
    adjust_fill_mode (supported_fill_modes b) req ∈ supported_fill_modes b := by
  cases b <;> cases req <;> decide

/-- C1 (code-bug evidence): with exactly 2 successful leg results out of 3
the triangle executor reports failure, not success, because the reached
rate `2/3` is strictly below the coded threshold `0.67` — contradicting
the code's own comment `# At least 2/3 orders must succeed`. With 1
successful leg it reports failure (as the claim also says), and only a
full 3/3 fill is reported successful. -/
theorem c1_two_of_three_fills_reported_failed :
    execute_triangle_success [true, true, false] = false ∧
    execute_triangle_success [true, false, false] = false ∧
    execute_triangle_success [true, true, true] = true ∧
    (2 : ℚ) / 3 < 67 / 100 := by
  refine ⟨?_, ?_, ?_, by norm_num⟩ <;> norm_num [execute_triangle_success]

/-- C3 (counterexample): on the pair universe
{EURUSD, GBPUSD, EURGBP} the enumerated triangle list contains two
distinct entries — built from the ordered cycles (EUR,USD,GBP) and
(USD,EUR,GBP) — that are a rotation/reflection of the same three
currencies, so the detector does not deduplicate. -/
theorem c3_counterexample :
    triangle_of_cycle ("EUR", "USD", "GBP") ∈
      find_triangular_combinations
        [("EUR", "USD"), ("GBP", "USD"), ("EUR", "GBP")] ∧
    triangle_of_cycle ("USD", "EUR", "GBP") ∈
      find_triangular_combinations
        [("EUR", "USD"), ("GBP", "USD"), ("EUR", "GBP")] ∧
    triangle_of_cycle ("EUR", "USD", "GBP") ≠
      triangle_of_cycle ("USD", "EUR", "GBP") ∧
    cycle_equiv ("EUR", "USD", "GBP") ("USD", "EUR", "GBP") := by
  decide

/-- Membership in the enumerated triangle list for every valid ordered
triple of currencies. -/
theorem mem_find_triangular_of_valid {pairs : List (String × String)}
    {c1 c2 c3 : String} (h : valid_ordered_triple pairs c1 c2 c3) :
    triangle_of_cycle (c1, c2, c3) ∈ find_triangular_combinations pairs := by
  obtain ⟨h1, h2, h3, h12, h23, h13, k1, k2, k3⟩ := h
  unfold find_triangular_combinations
  simp only [List.mem_flatMap]
  refine ⟨c1, h1, c2, h2, c3, h3, ?_⟩
  simp [triangle_of_cycle, h12, h23, h13, k1, k2, k3]

/-- C3 (amended): the detector enumerates every valid ordered triple as
its own entry and performs no rotation/reflection deduplication: whenever
an ordered triple is valid, all three of its rotations are enumerated
separately, so the same 3-currency cycle appears more than once. -/
theorem c3_rotations_enumerated_separately (pairs : List (String × String))
    (c1 c2 c3 : String) (h : valid_ordered_triple pairs c1 c2 c3) :
    triangle_of_cycle (c1, c2, c3) ∈ find_triangular_combinations pairs ∧
    triangle_of_cycle (c2, c3, c1) ∈ find_triangular_combinations pairs ∧
    triangle_of_cycle (c3, c1, c2) ∈ find_triangular_combinations pairs := by
  obtain ⟨h1, h2, h3, h12, h23, h13, k1, k2, k3⟩ := h
  exact ⟨mem_find_triangular_of_valid ⟨h1, h2, h3, h12, h23, h13, k1, k2, k3⟩,
    mem_find_triangular_of_valid
      ⟨h2, h3, h1, h23, Ne.symm h13, Ne.symm h12, k2, k3, k1⟩,
    mem_find_triangular_of_valid
      ⟨h3, h1, h2, Ne.symm h13, h12, Ne.symm h23, k3, k1, k2⟩⟩

/-- Witness for C3 (amended): concrete instantiation on the
{EURUSD, GBPUSD, EURGBP} universe with cycle (EUR, USD, GBP). -/
theorem c3_rotations_enumerated_separately_witness :
    valid_ordered_triple [("EUR", "USD"), ("GBP", "USD"), ("EUR", "GBP")]
      "EUR" "USD" "GBP" ∧
    triangle_of_cycle ("USD", "GBP", "EUR") ∈
      find_triangular_combinations
        [("EUR", "USD"), ("GBP", "USD"), ("EUR", "GBP")] :=
  ⟨by decide,
    (c3_rotations_enumerated_separately
      [("EUR", "USD"), ("GBP", "USD"), ("EUR", "GBP")]
      "EUR" "USD" "GBP" (by decide)).2.1⟩

/-- Python rounding never exceeds an integer upper bound of its argument. -/
theorem pyRound_le_intCast {x : ℚ} {M : ℤ} (h : x ≤ (M : ℚ)) :
    pyRound x ≤ M := by
  have hf : ⌊x⌋ ≤ M := by
    have := Int.floor_le_floor h
    simpa using this
  unfold pyRound
  split_ifs with h1 h2 h3
  · exact hf
  · rcases lt_or_eq_of_le hf with hlt | heq
    · omega
    · exfalso
      have hle : x - (⌊x⌋ : ℚ) ≤ 0 := by
        rw [heq]; linarith
      linarith
  · exact hf
  · rcases lt_or_eq_of_le hf with hlt | heq
    · omega
    · exfalso
      have hle : x - (⌊x⌋ : ℚ) ≤ 0 := by
        rw [heq]; linarith
      have h1' := not_lt.mp h1
      linarith

/-- Python rounding lands within half a unit of its argument. -/
theorem pyRound_sub_abs_le_half (x : ℚ) : |(pyRound x : ℚ) - x| ≤ 1 / 2 := by
  have hfl := Int.floor_le x
  have hfu := Int.lt_floor_add_one x
  unfold pyRound
  split_ifs with h1 h2 h3
  · rw [abs_le]
    constructor <;> linarith
  · rw [abs_le]
    have h1' := not_lt.mp h1
    push_cast
    constructor <;> linarith
  · rw [abs_le]
    have h1' := not_lt.mp h1
    have h2' := not_lt.mp h2
    constructor <;> linarith
  · rw [abs_le]
    have h1' := not_lt.mp h1
    have h2' := not_lt.mp h2
    push_cast
    constructor <;> linarith

/-- Python rounding resolves an exact halfway value to the even
neighbour. -/
theorem pyRound_tie (x : ℚ) (h : x - (⌊x⌋ : ℚ) = 1 / 2) :
    pyRound x = if ⌊x⌋ % 2 = 0 then ⌊x⌋ else ⌊x⌋ + 1 := by
  unfold pyRound
  rw [h]
  simp

/-- C2 (counterexample): with lot_step = 0.01, min_lot = 0.01 and
max_lot = 0.015 (all positive, min ≤ max, but max_lot not a multiple of
lot_step), a target of 15 at 1000 USD per lot yields a required lot of
exactly 0.015 = max_lot, which the rounding branch turns into 0.02 — a
plan lot strictly above max_lot, refuting the claimed [min_lot, max_lot]
bound. -/
theorem c2_counterexample :
    (0 : ℚ) < 1 / 100 ∧ (0 : ℚ) < 1 / 100 ∧ (1 : ℚ) / 100 ≤ 3 / 200 ∧
    calculate_equal_exposure_lots [("EURUSD", 1000)] ["EURUSD"]
        15 (1 / 100) (1 / 100) (3 / 200) = [("EURUSD", 1 / 50)] ∧
    ¬ ((1 : ℚ) / 50 ≤ 3 / 200) := by
  have hfloor : ⌊(15 / 1000 / (1 / 100) : ℚ)⌋ = 1 := by
    rw [Int.floor_eq_iff]
    norm_num
  refine ⟨by norm_num, by norm_num, by norm_num, ?_, by norm_num⟩
  simp only [calculate_equal_exposure_lots, List.map_cons, List.map_nil,
    equal_exposure_lot, List.lookup]
  norm_num [pyRound, hfloor, max_def]

/-- C2 (amended): under the additional assumption that `max_lot` is an
integer multiple of `lot_step`, every lot of the equal-exposure plan lies
in `[min_lot, max_lot]`, and any lot strictly above `min_lot` is an exact
integer multiple of `lot_step`. -/
theorem c2_exposure_plan_bounds (usd_values : List (String × ℚ))
    (triangle_pairs : List String) (target lot_step min_lot max_lot : ℚ)
    (hstep : 0 < lot_step) (hmin : 0 < min_lot) (hmm : min_lot ≤ max_lot)
    (M : ℤ) (hmax : max_lot = (M : ℚ) * lot_step) :
    ∀ entry ∈ calculate_equal_exposure_lots usd_values triangle_pairs
        target lot_step min_lot max_lot,
      min_lot ≤ entry.2 ∧ entry.2 ≤ max_lot ∧
      (min_lot < entry.2 → ∃ k : ℤ, entry.2 = (k : ℚ) * lot_step) := by
  intro entry hentry
  simp only [calculate_equal_exposure_lots, List.mem_map] at hentry
  obtain ⟨pair, _, rfl⟩ := hentry
  show min_lot ≤ equal_exposure_lot usd_values target lot_step min_lot max_lot pair ∧ _
  unfold equal_exposure_lot
  cases hu : usd_values.lookup pair with
  | none =>
      dsimp only
      exact ⟨le_refl _, hmm, fun h => absurd h (lt_irrefl _)⟩
  | some usd =>
      dsimp only
      by_cases hlo : target / usd < min_lot
      · rw [if_pos hlo]
        exact ⟨le_refl _, hmm, fun h => absurd h (lt_irrefl _)⟩
      · rw [if_neg hlo]
        by_cases hhi : max_lot < target / usd
        · rw [if_pos hhi]
          exact ⟨hmm, le_refl _, fun _ => ⟨M, hmax⟩⟩
        · rw [if_neg hhi]
          have hkM : pyRound (target / usd / lot_step) ≤ M := by
            apply pyRound_le_intCast
            rw [div_le_iff₀ hstep, ← hmax]
            exact not_lt.mp hhi
          have hkq : ((pyRound (target / usd / lot_step) : ℤ) : ℚ) * lot_step ≤ max_lot := by
            rw [hmax]
            exact mul_le_mul_of_nonneg_right (by exact_mod_cast hkM) hstep.le
          refine ⟨le_max_right _ _, max_le hkq hmm, fun h => ?_⟩
          rcases le_or_lt ((pyRound (target / usd / lot_step) : ℚ) * lot_step) min_lot
            with hc | hc
          · rw [max_eq_right hc] at h
            exact absurd h (lt_irrefl _)
          · exact ⟨_, max_eq_left hc.le⟩

/-- Witness for C2 (amended): concrete instantiation with
lot_step = 0.01, min_lot = 0.01, max_lot = 1 = 100 × lot_step. -/
theorem c2_exposure_plan_bounds_witness :
    ("EURUSD", (1 : ℚ) / 10) ∈ calculate_equal_exposure_lots
        [("EURUSD", 1000)] ["EURUSD"] 100 (1 / 100) (1 / 100) 1 ∧
    (1 : ℚ) / 100 ≤ ("EURUSD", (1 : ℚ) / 10).2 ∧
    ("EURUSD", (1 : ℚ) / 10).2 ≤ 1 := by
  have hfloor : ⌊(100 / 1000 / (1 / 100) : ℚ)⌋ = 10 := by
    rw [Int.floor_eq_iff]
    norm_num
  have hmem : ("EURUSD", (1 : ℚ) / 10) ∈ calculate_equal_exposure_lots
      [("EURUSD", 1000)] ["EURUSD"] 100 (1 / 100) (1 / 100) 1 := by
    simp only [calculate_equal_exposure_lots, List.map_cons, List.map_nil,
      equal_exposure_lot, List.lookup]
    norm_num [pyRound, hfloor, max_def]
  have hb := c2_exposure_plan_bounds [("EURUSD", 1000)] ["EURUSD"]
    100 (1 / 100) (1 / 100) 1 (by norm_num) (by norm_num) (by norm_num)
    100 (by norm_num) ("EURUSD", (1 : ℚ) / 10) hmem
  exact ⟨hmem, hb.1, hb.2.1⟩

/-- C6 (counterexample): with lot_step = 0.01, min_lot = 0.01,
max_lot = 1, a required lot of exactly 0.025 — strictly between min and
max and exactly halfway between the multiples 0.02 and 0.03 — is rounded
to 0.02, the SMALLER multiple (Python ties-to-even), refuting
round-half-up. -/
theorem c6_counterexample :
    equal_exposure_lot [("EURUSD", 1000)] 25 (1 / 100) (1 / 100) 1 "EURUSD"
      = 1 / 50 ∧
    (1 : ℚ) / 100 < 25 / 1000 ∧ (25 : ℚ) / 1000 < 1 ∧
    ((1 : ℚ) / 50 + 3 / 100) / 2 = 25 / 1000 ∧
    (1 : ℚ) / 50 < 3 / 100 := by
  have hfloor : ⌊(25 / 1000 / (1 / 100) : ℚ)⌋ = 2 := by
    rw [Int.floor_eq_iff]
    norm_num
  refine ⟨?_, by norm_num, by norm_num, by norm_num, by norm_num⟩
  simp only [equal_exposure_lot, List.lookup]
  norm_num [pyRound, hfloor, max_def]

/-- C6 (amended): for a required lot strictly between `min_lot` and
`max_lot` the sizer returns
`max (pyRound (required / lot_step) * lot_step) min_lot`, where `pyRound`
rounds to the nearest integer with exact halves resolved to the EVEN
neighbour (Python banker's rounding, not round-half-up); in particular
the result is never below `min_lot` and the chosen multiple is within
half a unit of `required / lot_step`. -/
theorem c6_round_half_to_even (usd_values : List (String × ℚ))
    (pair : String) (usd target lot_step min_lot max_lot : ℚ)
    (hu : usd_values.lookup pair = some usd)
    (h1 : min_lot < target / usd) (h2 : target / usd < max_lot) :
    equal_exposure_lot usd_values target lot_step min_lot max_lot pair
      = max ((pyRound (target / usd / lot_step) : ℚ) * lot_step) min_lot ∧
    min_lot ≤ equal_exposure_lot usd_values target lot_step min_lot max_lot pair ∧
    (∀ x : ℚ, |(pyRound x : ℚ) - x| ≤ 1 / 2) ∧
    (∀ x : ℚ, x - (⌊x⌋ : ℚ) = 1 / 2 →
      pyRound x = if ⌊x⌋ % 2 = 0 then ⌊x⌋ else ⌊x⌋ + 1) := by
  have heq : equal_exposure_lot usd_values target lot_step min_lot max_lot pair
      = max ((pyRound (target / usd / lot_step) : ℚ) * lot_step) min_lot := by
    unfold equal_exposure_lot
    rw [hu]
    dsimp only
    rw [if_neg (not_lt.mpr h1.le), if_neg (not_lt.mpr h2.le)]
  refine ⟨heq, ?_, pyRound_sub_abs_le_half, pyRound_tie⟩
  rw [heq]
  exact le_max_right _ _

/-- Witness for C6 (amended): concrete instantiation at the
counterexample input, confirming the max/pyRound form evaluates to the
smaller multiple 0.02. -/
theorem c6_round_half_to_even_witness :
    equal_exposure_lot [("EURUSD", 1000)] 25 (1 / 100) (1 / 100) 1 "EURUSD"
      = max ((pyRound ((25 : ℚ) / 1000 / (1 / 100)) : ℚ) * (1 / 100)) (1 / 100) :=
  (c6_round_half_to_even [("EURUSD", 1000)] "EURUSD" 1000 25 (1 / 100)
    (1 / 100) 1 (by simp [List.lookup]) (by norm_num) (by norm_num)).1

/-- C5: for a plan whose three pairs all resolve to USD values (and whose
average exposure is positive, so that relative deviation is defined),
`validate_triangle_balance` returns true exactly when the maximum
relative deviation of the per-leg exposures from their average is at most
the tolerance. -/
theorem c5_validate_balance_iff (usd_values : List (String × ℚ))
    (p1 p2 p3 : String) (l1 l2 l3 u1 u2 u3 tolerance : ℚ)
    (h1 : usd_values.lookup p1 = some u1)
    (h2 : usd_values.lookup p2 = some u2)
    (h3 : usd_values.lookup p3 = some u3)
    (havg : 0 < (l1 * u1 + l2 * u2 + l3 * u3) / 3) :
    (validate_triangle_balance usd_values [(p1, l1), (p2, l2), (p3, l3)]
        tolerance = true ↔
      spec_max_relative_deviation (l1 * u1) (l2 * u2) (l3 * u3) ≤ tolerance) := by
  simp only [validate_triangle_balance, List.filterMap_cons, h1, h2, h3,
    Option.map_some', List.filterMap_nil, List.length_cons, List.length_nil,
    List.sum_cons, List.sum_nil, List.map_cons, List.map_nil,
    List.foldl_cons, List.foldl_nil, spec_max_relative_deviation]
  norm_num [max_assoc, add_assoc]

/-- Witness for C5: three resolvable pairs with equal unit exposures are
reported balanced at tolerance 5%. -/
theorem c5_validate_balance_iff_witness :
    validate_triangle_balance [("EURUSD", 1), ("GBPUSD", 1), ("EURGBP", 1)]
      [("EURUSD", 1), ("GBPUSD", 1), ("EURGBP", 1)] (1 / 20) = true :=
  (c5_validate_balance_iff [("EURUSD", 1), ("GBPUSD", 1), ("EURGBP", 1)]
      "EURUSD" "GBPUSD" "EURGBP" 1 1 1 1 1 1 (1 / 20)
      (by simp [List.lookup]) (by simp [List.lookup]) (by simp [List.lookup])
      (by norm_num)).mpr
    (by norm_num [spec_max_relative_deviation])

/-- A single trigger preserves the cooldown invariant and keeps all
record timestamps at or before the current time. -/
theorem trigger_preserves_cooldown (targets : ProfitLevel → ProfitTarget)
    (records : List HarvestRecord) (now : ℤ) (pos : Position)
    (level : ProfitLevel) (pips : ℚ) (ok : Bool)
    (hsep : harvest_cooldown_respected records)
    (hts : ∀ r ∈ records, r.timestamp ≤ now) :
    harvest_cooldown_respected
      (trigger_profit_taking targets records now pos level pips ok).1 ∧
    ∀ r ∈ (trigger_profit_taking targets records now pos level pips ok).1,
      r.timestamp ≤ now := by
  by_cases hhit : is_level_already_hit records now pos level = true
  · have heq : trigger_profit_taking targets records now pos level pips ok
        = (records, false) := by
      unfold trigger_profit_taking
      rw [if_pos hhit]
    rw [heq]
    exact ⟨hsep, hts⟩
  · cases ok with
    | false =>
        have heq : trigger_profit_taking targets records now pos level pips
            false = (records, false) := by
          unfold trigger_profit_taking
          rw [if_neg hhit]
          rfl
        rw [heq]
        exact ⟨hsep, hts⟩
    | true =>
        have heq : trigger_profit_taking targets records now pos level pips
            true = (records ++
              [{ position_id := pos.ticket
                 symbol := pos.symbol
                 profit_level := level
                 pips_harvested := pips
                 amount_harvested :=
                   pos.profit * ((targets level).percentage / 100)
                 percentage_closed := (targets level).percentage
                 timestamp := now
                 remaining_position :=
                   pos.volume - pos.volume * ((targets level).percentage / 100) }],
              true) := by
          unfold trigger_profit_taking
          rw [if_neg hhit]
          rfl
        rw [heq]
        constructor
        · rw [harvest_cooldown_respected, List.pairwise_append]
          refine ⟨hsep, List.pairwise_singleton _ _, ?_⟩
          intro a ha b hb
          simp only [List.mem_singleton] at hb
          subst hb
          dsimp only
          intro hid hlvl
          have hkey : ¬ (a.position_id = pos.ticket ∧ a.profit_level = level ∧
              now - a.timestamp < 3600) := by
            rintro ⟨k1, k2, k3⟩
            apply hhit
            simp only [is_level_already_hit, List.any_eq_true]
            exact ⟨a, ha, by simp [k1, k2, k3]⟩
          have hfar : ¬ now - a.timestamp < 3600 := fun hlt =>
            hkey ⟨hid, hlvl, hlt⟩
          omega
        · intro r hr
          rcases List.mem_append.mp hr with hr | hr
          · exact hts r hr
          · simp only [List.mem_singleton] at hr
            subst hr
            exact le_refl now

/-- Running a time-ordered sequence of triggers from a state satisfying
the cooldown invariant (with timestamps before every tick) preserves the
invariant. -/
theorem run_triggers_cooldown (targets : ProfitLevel → ProfitTarget)
    (events : List TriggerEvent) (records : List HarvestRecord)
    (hmono : events.Pairwise fun a b => a.now ≤ b.now)
    (hsep : harvest_cooldown_respected records)
    (hts : ∀ r ∈ records, ∀ e ∈ events, r.timestamp ≤ e.now) :
    harvest_cooldown_respected (run_triggers targets records events) := by
  induction events generalizing records with
  | nil => exact hsep
  | cons e es ih =>
      rw [List.pairwise_cons] at hmono
      obtain ⟨hhead, htail⟩ := hmono
      have hts_e : ∀ r ∈ records, r.timestamp ≤ e.now := fun r hr =>
        hts r hr e (List.mem_cons_self e es)
      obtain ⟨hsep', hts'⟩ := trigger_preserves_cooldown targets records
        e.now e.pos e.level e.current_pips e.close_ok hsep hts_e
      exact ih _ htail hsep'
        (fun r hr e' he' => le_trans (hts' r hr) (hhead e' he'))

/-- C4: over any time-ordered sequence of monitoring-tick triggers
starting from no records, any two harvest records for the same
(position ticket, profit level) are at least one hour apart — at most one
harvest per cooldown window; moreover a trigger arriving while a record
for that (position, level) is younger than one hour performs no partial
close and appends no record. -/
theorem c4_harvest_cooldown_unique (targets : ProfitLevel → ProfitTarget)
    (events : List TriggerEvent)
    (hmono : events.Pairwise fun a b => a.now ≤ b.now) :
    harvest_cooldown_respected (run_triggers targets [] events) ∧
    ∀ records now pos level pips ok,
      (∃ r ∈ records, r.position_id = pos.ticket ∧ r.profit_level = level ∧
          now - r.timestamp < 3600) →
        trigger_profit_taking targets records now pos level pips ok
          = (records, false) := by
  constructor
  · exact run_triggers_cooldown targets events [] hmono List.Pairwise.nil
      (fun r hr => absurd hr (List.not_mem_nil r))
  · rintro records now pos level pips ok ⟨r, hr, h1, h2, h3⟩
    have hhit : is_level_already_hit records now pos level = true := by
      simp only [is_level_already_hit, List.any_eq_true]
      exact ⟨r, hr, by simp [h1, h2, h3]⟩
    unfold trigger_profit_taking
    rw [if_pos hhit]

/-- Witness for C4: two ticks 10 seconds apart triggering the same level
on the same position leave the cooldown invariant intact (only the first
harvest is recorded). -/
theorem c4_harvest_cooldown_unique_witness :
    ([⟨0, sample_position, ProfitLevel.QUICK_SCALP, 10, true⟩,
      ⟨10, sample_position, ProfitLevel.QUICK_SCALP, 12, true⟩] :
        List TriggerEvent).Pairwise (fun a b => a.now ≤ b.now) ∧
    harvest_cooldown_respected
      (run_triggers default_profit_targets []
        [⟨0, sample_position, ProfitLevel.QUICK_SCALP, 10, true⟩,
         ⟨10, sample_position, ProfitLevel.QUICK_SCALP, 12, true⟩]) :=
  ⟨by decide,
    (c4_harvest_cooldown_unique default_profit_targets
      [⟨0, sample_position, ProfitLevel.QUICK_SCALP, 10, true⟩,
       ⟨10, sample_position, ProfitLevel.QUICK_SCALP, 12, true⟩]
      (by decide)).1⟩

/-- C9 (counterexample): a buy position open at 1.0000 with a 10-pip
trailing distance: at price 1.0020 (20 pips profit, update runs) the
computed stop is 1.0010; at the next tick price 1.0015 (15 pips profit,
update still runs) the computed stop is 1.0005 — the stop RETREATS,
refuting monotonicity. -/
theorem c9_counterexample :
    10 < calculate_profit_pips sample_position (10020 / 10000) ∧
    10 < calculate_profit_pips sample_position (10015 / 10000) ∧
    update_trailing_stop 10 sample_position (10015 / 10000) <
      update_trailing_stop 10 sample_position (10020 / 10000) := by
  have hpip : pip_size_of "EURUSD" = 1 / 10000 := by
    unfold pip_size_of
    rw [if_neg (by decide)]
  refine ⟨?_, ?_, ?_⟩ <;>
    norm_num [calculate_profit_pips, update_trailing_stop,
      sample_position, hpip]

/-- C9 (amended): the computed trailing stop always sits at exactly the
fixed pip distance behind (buy) or ahead of (sell) the CURRENT price, so
across successive updates it moves with the price in both directions
(greater stop iff greater price for a buy; it is not clamped to the
previously set stop and can retreat when the price retreats). -/
theorem c9_trailing_stop_tracks_price (d : ℚ) (pos : Position)
    (p1 p2 : ℚ) :
    (pos.type = "buy" →
      update_trailing_stop d pos p1 = p1 - d * pip_size_of pos.symbol ∧
      (update_trailing_stop d pos p1 ≤ update_trailing_stop d pos p2 ↔
        p1 ≤ p2)) ∧
    (pos.type ≠ "buy" →
      update_trailing_stop d pos p1 = p1 + d * pip_size_of pos.symbol ∧
      (update_trailing_stop d pos p1 ≤ update_trailing_stop d pos p2 ↔
        p1 ≤ p2)) := by
  constructor
  · intro h
    have hf : ∀ p : ℚ, update_trailing_stop d pos p
        = p - d * pip_size_of pos.symbol := by
      intro p
      simp [update_trailing_stop, h]
    refine ⟨hf p1, ?_⟩
    rw [hf p1, hf p2]
    constructor <;> intro hle <;> linarith
  · intro h
    have hf : ∀ p : ℚ, update_trailing_stop d pos p
        = p + d * pip_size_of pos.symbol := by
      intro p
      simp [update_trailing_stop, h]
    refine ⟨hf p1, ?_⟩
    rw [hf p1, hf p2]
    constructor <;> intro hle <;> linarith

/-- Witness for C9 (amended): the buy-side formula at the sample
position. -/
theorem c9_trailing_stop_tracks_price_witness :
    update_trailing_stop 10 sample_position 1 =
      1 - 10 * pip_size_of sample_position.symbol :=
  ((c9_trailing_stop_tracks_price 10 sample_position 1 2).1 rfl).1

/-- Sizes of the layers created by the indexed creation loop, when every
candidate has a price: the layer from the i-th candidate (0-based,
counted from start index `i₀`) has size `volume × multiplier ^ (i + 1)`. -/
theorem create_layers_sizes (m : ℚ) (now : ℤ)
    (prices : String → Option ℚ) (pos : Position) :
    ∀ (cs : List (String × ℚ)) (i : ℕ),
      (∀ c ∈ cs, (prices c.1).isSome) →
      (create_layers m now prices pos i cs).map (fun l => l.position_size)
        = (List.range cs.length).map
            (fun j => pos.volume * m ^ (i + j + 1)) := by
  intro cs
  induction cs with
  | nil =>
      intro i _
      simp [create_layers]
  | cons c cs ih =>
      intro i hall
      obtain ⟨p, hp⟩ := Option.isSome_iff_exists.mp
        (hall c (List.mem_cons_self c cs))
      simp only [create_layers, create_recovery_layer, hp]
      rw [List.map_cons,
        ih (i + 1) (fun c' hc' => hall c' (List.mem_cons_of_mem c hc')),
        List.length_cons, List.range_succ_eq_map, List.map_cons,
        List.map_map]
      congr 1
      apply List.map_congr_left
      intro j _
      have hexp : i + 1 + j + 1 = i + (j + 1) + 1 := by omega
      simp [Function.comp, hexp]

/-- C7 (amended): on a recovery activation where every eligible candidate
pair (taken in order, up to `max_layers`) has a current price, the k-th
created layer (k = 0, 1, 2, …) has position size
`volume × multiplier ^ (k + 1)` — geometric growth starting at
`volume × multiplier`, because `_create_recovery_layer` receives the
1-based `layer_id = i + 1` as exponent; and with `max_layers = 0` no
layer is created, so no recovery chain is activated. -/
theorem c7_layer_sizes (max_layers : ℕ) (m : ℚ) (now : ℤ)
    (prices : String → Option ℚ) (pos : Position)
    (recovery_pairs : List (String × ℚ))
    (hall : ∀ c ∈ recovery_pairs, (prices c.1).isSome) :
    (activate_recovery max_layers m now prices pos recovery_pairs).map
        (fun l => l.position_size)
      = (List.range (min max_layers recovery_pairs.length)).map
          (fun k => pos.volume * m ^ (k + 1)) ∧
    activate_recovery 0 m now prices pos recovery_pairs = [] := by
  constructor
  · unfold activate_recovery
    rw [create_layers_sizes m now prices pos _ 0
        (fun c hc => hall c (List.take_subset max_layers recovery_pairs hc)),
      List.length_take]
    simp only [Nat.zero_add]
  · rfl

/-- Witness for C7 (amended): two candidates, multiplier 1.5, all prices
available — the two layers have sizes volume×1.5 and volume×1.5². -/
theorem c7_layer_sizes_witness :
    (activate_recovery 2 (3 / 2) 0 (fun _ => some 1) sample_position
        [("GBPUSD", 9 / 10), ("USDJPY", 8 / 10)]).map
        (fun l => l.position_size)
      = (List.range (min 2 2)).map
          (fun k => sample_position.volume * (3 / 2 : ℚ) ^ (k + 1)) :=
  (c7_layer_sizes 2 (3 / 2) 0 (fun _ => some 1) sample_position
    [("GBPUSD", 9 / 10), ("USDJPY", 8 / 10)] (fun c _ => rfl)).1

/-- C7 (counterexample): one candidate, multiplier 1.5, original volume
1 — the first created layer (k = 0 in creation order) has size 1.5, not
the claimed `volume × multiplier ^ 0 = 1`. -/
theorem c7_counterexample :
    (activate_recovery 1 (3 / 2) 0 (fun _ => some 1) sample_position
        [("GBPUSD", 9 / 10)]).map (fun l => l.position_size) = [3 / 2] ∧
    sample_position.volume = 1 ∧ ((3 : ℚ) / 2) ≠ 1 := by
  refine ⟨?_, ?_, ?_⟩
  · simp only [activate_recovery, List.take, create_layers,
      create_recovery_layer, List.map_cons, List.map_nil]
    norm_num [sample_position]
  · simp [sample_position]
  · norm_num

end Phoenix
